import Mathlib

/-!
Verification of the blogicum blog application (src/blogicum/blog/) against its
natural-language specification. The view logic is embedded from
src/blogicum/blog/views.py and src/blogicum/blog/forms.py; the data model
(models.py) and the framework paginator are not under src/ and are modelled
from the spec where needed.
-/

namespace Blogicum

/-- Modelled from the spec: models.py is not under src/. §3: a User is an
identity with a unique username. -/
structure User where
  username : String
deriving DecidableEq

/-- Modelled from the spec: models.py is not under src/. §3: a Category has a
slug (URL-safe unique identifier) and an is_published flag. -/
structure Category where
  id : Nat
  slug : String
  is_published : Bool
deriving DecidableEq

/-- Modelled from the spec: models.py is not under src/. §3: a Post has a
publication date, an is_published flag, an author (User reference, stored here
by username) and an optional Category reference (stored here by id). Dates are
modelled as integers ordered like calendar dates. -/
structure Post where
  id : Nat
  author : String
  pub_date : Int
  is_published : Bool
  category : Option Nat
deriving DecidableEq

/-- Modelled from the spec: models.py is not under src/. §3: a Comment has a
reference to its Post and a reference to its author (User). -/
structure Comment where
  id : Nat
  author : String
  post : Nat
deriving DecidableEq

/-- The persistent store (spec §6): collections of the four entities. -/
structure DB where
  users : List User
  categories : List Category
  posts : List Post
  comments : List Comment
deriving DecidableEq

/-- Resolve a Post's optional Category reference in the store. -/
def categoryOf (db : DB) (p : Post) : Option Category :=
  p.category.bind (fun cid => db.categories.find? (fun c => c.id == cid))

/-- The ORM filter `category__is_published=True` (views.py line 95): an inner
join on the category relation, so a Post with no category is excluded. -/
def categoryIsPublished (db : DB) (p : Post) : Bool :=
  match categoryOf db p with
  | some c => c.is_published
  | none => false

/-- The ORM filter `category__slug=slug` (views.py line 229): inner join on the
category relation, comparing its slug. -/
def categoryHasSlug (db : DB) (p : Post) (slug : String) : Bool :=
  match categoryOf db p with
  | some c => c.slug == slug
  | none => false

/-- The ORM `Count('comments')` aggregate: the number of Comments whose post
reference is this Post. -/
def commentCount (db : DB) (p : Post) : Nat :=
  (db.comments.filter (fun c => c.post == p.id)).length

/-- A row of a listing: a Post, possibly carrying the derived comment_count
value (none when the queryset was not annotated with it). -/
structure Entry where
  post : Post
  commentCount : Option Nat
deriving DecidableEq

/-- Insert an Entry into a list already sorted by descending pub_date, after
every earlier entry with the same or a later date (keeping the sort stable). -/
def insertDesc (a : Entry) : List Entry → List Entry
  | [] => [a]
  | b :: l =>
      if b.post.pub_date < a.post.pub_date then a :: b :: l
      else b :: insertDesc a l

/-- Stable sort realising `order_by('-pub_date')`: descending by pub_date,
ties kept in the input order. -/
def orderByPubDateDesc : List Entry → List Entry
  | [] => []
  | a :: l => insertDesc a (orderByPubDateDesc l)

/-- views.py lines 87-96, `get_published_posts`: Posts with
`pub_date__lte=date.today()`, `is_published=True`, `category__is_published=True`. -/
def get_published_posts (db : DB) (today : Int) : List Post :=
  db.posts.filter (fun p =>
    decide (p.pub_date ≤ today) && p.is_published && categoryIsPublished db p)

/-- views.py lines 99-106, `PostListView` (the index listing): the published
posts annotated with comment_count and ordered by descending pub_date. -/
def postListView (db : DB) (today : Int) : List Entry :=
  orderByPubDateDesc
    ((get_published_posts db today).map (fun p => ⟨p, some (commentCount db p)⟩))

/-- views.py lines 36-47, `ProfileListView.get_queryset`: when the requesting
user's username equals the requested username, all of that user's posts,
annotated with comment_count; otherwise that user's posts filtered only by
`pub_date__lte=date.today()`, with no comment_count annotate call. Both
branches order by descending pub_date. -/
def profileQueryset (db : DB) (today : Int) (requestUser username : String) :
    List Entry :=
  if requestUser = username then
    orderByPubDateDesc
      ((db.posts.filter (fun p => p.author == username)).map
        (fun p => ⟨p, some (commentCount db p)⟩))
  else
    orderByPubDateDesc
      ((db.posts.filter
          (fun p => p.author == username && decide (p.pub_date ≤ today))).map
        (fun p => ⟨p, none⟩))

/-- Outcome of a profile-listing request. -/
inductive ProfileResponse where
  | notFound
  | loginRedirect
  | listing (profile : String) (entries : List Entry)
deriving DecidableEq

/-- views.py lines 25-52, `ProfileListView`: its own dispatch first resolves
the requested username with `get_object_or_404(User, ...)` (line 33), then
`super().dispatch` reaches LoginRequiredMixin, which redirects unauthenticated
callers to login (spec §4.2: unauthenticated callers are rejected upstream with
a redirect-to-login; the mixin itself is framework code not under src/).
An authenticated viewer gets the queryset of `get_queryset`. The viewer is
`none` when anonymous, otherwise `some` of the authenticated username. The
listing carries the full ordered queryset; the framework's ListView then
slices it into pages of `paginate_by = 10` (views.py line 28), modelled by
`profileListPage` below. -/
def profileListView (db : DB) (today : Int) (viewer : Option String)
    (username : String) : ProfileResponse :=
  if (db.users.find? (fun u => u.username == username)).isNone then
    .notFound
  else
    match viewer with
    | none => .loginRedirect
    | some u => .listing username (profileQueryset db today u username)

/-- Modelled from the spec: the framework paginator implementation is not under
src/. §4.3: total pages for a collection of the given length at the given page
size (an empty collection still has one page). -/
def numPages (count pageSize : Nat) : Nat :=
  max 1 ((count + pageSize - 1) / pageSize)

/-- Modelled from the spec: the framework paginator implementation is not under
src/. §4.3: the requested page number is 1-indexed; absent or non-numeric input
(`none`) falls back to page 1; out-of-range numbers clamp to the nearest valid
page (first or last). -/
def resolvePage (count pageSize : Nat) (param : Option Int) : Nat :=
  match param with
  | none => 1
  | some p =>
      if p < 1 then 1
      else if (numPages count pageSize : Int) < p then numPages count pageSize
      else p.toNat

/-- A page of results plus the metadata of spec §4.3. -/
structure Page (α : Type) where
  number : Nat
  items : List α
  totalPages : Nat
  hasNext : Bool
  hasPrevious : Bool
deriving DecidableEq

/-- Modelled from the spec: the framework paginator implementation is not under
src/. §4.3: slice the ordered sequence into fixed-size pages and return the
requested page's slice plus metadata. -/
def getPage (l : List α) (pageSize : Nat) (param : Option Int) : Page α :=
  let np := numPages l.length pageSize
  let n := resolvePage l.length pageSize param
  ⟨n, (l.drop ((n - 1) * pageSize)).take pageSize, np,
    decide (n < np), decide (1 < n)⟩

/-- views.py lines 99-106: the index listing is paginated with
`paginate_by = 10`. -/
def postListPage (db : DB) (today : Int) (param : Option Int) : Page Entry :=
  getPage (postListView db today) 10 param

/-- views.py line 28: `ProfileListView` paginates its queryset with
`paginate_by = 10`; the page slicing itself is the framework ListView's
pagination, not under src/, realised by `getPage` (spec §4.3). -/
def profileListPage (db : DB) (today : Int) (requestUser username : String)
    (param : Option Int) : Page Entry :=
  getPage (profileQueryset db today requestUser username) 10 param

/-- views.py lines 227-238, the queryset paginated inside
`CategoryDetailView.get_context_data`: Posts with `category__slug`,
`is_published=True`, `pub_date__lte=date.today()`, annotated with
comment_count and ordered by descending pub_date. Note: no condition on the
Category's own is_published flag. -/
def categoryPosts (db : DB) (today : Int) (slug : String) : List Entry :=
  orderByPubDateDesc
    ((db.posts.filter (fun p =>
        categoryHasSlug db p slug && p.is_published &&
          decide (p.pub_date ≤ today))).map
      (fun p => ⟨p, some (commentCount db p)⟩))

/-- views.py lines 227-238: the page object built in
`CategoryDetailView.get_context_data` by `Paginator(..., 10).get_page(...)`
over the category queryset. -/
def categoryListPage (db : DB) (today : Int) (slug : String)
    (param : Option Int) : Page Entry :=
  getPage (categoryPosts db today slug) 10 param

/-- Outcome of a category-detail request. -/
inductive CategoryResponse where
  | notFound
  | page (category : Category) (page_obj : Page Entry)
deriving DecidableEq

/-- views.py lines 218-239, `CategoryDetailView`: a DetailView over Category
resolved by slug with the model's default queryset (all categories, published
or not); when found, the context carries the page of `categoryPosts` built by
`Paginator(..., 10).get_page(page_number)`. -/
def categoryDetailView (db : DB) (today : Int) (slug : String)
    (param : Option Int) : CategoryResponse :=
  match db.categories.find? (fun c => c.slug == slug) with
  | none => .notFound
  | some c => .page c (categoryListPage db today slug param)

/-- Outcome of a post-detail request. -/
inductive PostDetailResponse where
  | notFound
  | detail (post : Post) (comments : List Comment)
deriving DecidableEq

/-- views.py lines 126-134, `PostDetailView`: a plain DetailView over Post by
pk with the model's default queryset; the context adds the post's comments.
The viewer plays no role: the view performs no visibility or ownership check. -/
def postDetailView (db : DB) (viewer : Option String) (pk : Nat) :
    PostDetailResponse :=
  match db.posts.find? (fun p => p.id == pk) with
  | none => .notFound
  | some p => .detail p (db.comments.filter (fun c => c.post == p.id))

/-- Outcome of a mutation (update/delete) dispatch. -/
inductive MutResponse where
  | notFound
  | permissionDenied
  | redirectIndex
  | redirectPostDetail (pk : Nat)
  | loginRedirect
  | proceed
deriving DecidableEq

/-- views.py lines 142-152, `PostUpdateView.dispatch`:
`get_object_or_404(Post, pk)`, then PermissionDenied when
`request.user != post.author` (an anonymous user never equals a User, so the
later unauthenticated-redirect branch at lines 148-151 is unreachable), then
the mutation proceeds. -/
def postUpdateDispatch (db : DB) (viewer : Option String) (pk : Nat) :
    MutResponse :=
  match db.posts.find? (fun p => p.id == pk) with
  | none => .notFound
  | some p =>
    if viewer ≠ some p.author then .permissionDenied
    else
      match viewer with
      | none => .redirectPostDetail pk
      | some _ => .proceed

/-- views.py lines 160-170, `PostDeleteView.dispatch`:
`get_object_or_404(Post, pk)`, then PermissionDenied when
`instance.author != request.user`, then the mutation proceeds
(LoginRequiredMixin runs after this dispatch and is unreachable for anonymous
users, who already fail the author comparison). -/
def postDeleteDispatch (db : DB) (viewer : Option String) (pk : Nat) :
    MutResponse :=
  match db.posts.find? (fun p => p.id == pk) with
  | none => .notFound
  | some p =>
    if some p.author ≠ viewer then .permissionDenied
    else
      match viewer with
      | none => .loginRedirect
      | some _ => .proceed

/-- views.py lines 193-215, `CommentMixin.dispatch` as used by
CommentUpdateView and CommentDeleteView: the dispatch looks up a POST by
`pk=kwargs['comment_id']` (line 201) with `get_object_or_404`, redirects to
the index when that Post's author is not the requesting user (lines 202-203),
and otherwise continues into LoginRequiredMixin (anonymous users never pass
the author comparison, so that branch is unreachable) and the generic view's
own object lookup, which resolves the Comment by `pk_url_kwarg='comment_id'`
and raises not-found when no such Comment exists. -/
def commentMutDispatch (db : DB) (viewer : Option String) (comment_id : Nat) :
    MutResponse :=
  match db.posts.find? (fun p => p.id == comment_id) with
  | none => .notFound
  | some p =>
    if some p.author ≠ viewer then .redirectIndex
    else
      match viewer with
      | none => .loginRedirect
      | some _ =>
        match db.comments.find? (fun c => c.id == comment_id) with
        | none => .notFound
        | some _ => .proceed

/-- forms.py lines 13-18, `PostForm`: the fields a user may submit when
creating a Post. `author` and `is_published` are excluded from the form. -/
structure PostFormInput where
  title : String
  text : String
  pub_date : Option Int
  category : Option Nat
deriving DecidableEq

/-- views.py lines 109-114, `PostValidMixin.form_valid`: the stored Post's
author is set server-side to the requesting user, and a missing pub_date is
replaced by today's date. The is_published flag is outside the form; its
stored value is the model default (models.py is not under src/), passed here
as modelDefaultPublished. -/
def createPost (form : PostFormInput) (actingUser : String) (today : Int)
    (newId : Nat) (modelDefaultPublished : Bool) : Post :=
  { id := newId
    author := actingUser
    pub_date := match form.pub_date with
      | none => today
      | some d => d
    is_published := modelDefaultPublished
    category := form.category }

end Blogicum

namespace Blogicum

/-! ## Concrete stores exhibiting the behaviour of the code -/

/-- A store with a Post by bob that has `is_published = false` and a past
pub_date, and no comments. -/
def db1 : DB :=
  ⟨[⟨"alice"⟩, ⟨"bob"⟩], [], [⟨1, "bob", 0, false, none⟩], []⟩

/-- A store with a single unpublished Post. -/
def db2 : DB :=
  ⟨[⟨"alice"⟩, ⟨"bob"⟩], [], [⟨1, "bob", 0, false, none⟩], []⟩

/-- A store where Post 1 is authored by alice while Comment 1 (on Post 1) is
authored by bob. -/
def db3 : DB :=
  ⟨[⟨"alice"⟩, ⟨"bob"⟩, ⟨"carol"⟩], [], [⟨1, "alice", 0, true, none⟩],
    [⟨1, "bob", 1⟩]⟩

/-- A store with one Category whose is_published flag is false. -/
def db4 : DB :=
  ⟨[⟨"alice"⟩], [⟨1, "hidden", false⟩], [], []⟩

/-- A store with a Post of pk 7 authored by alice and no Comment at all, so
comment id 7 refers to no existing Comment. -/
def db5 : DB :=
  ⟨[⟨"alice"⟩, ⟨"bob"⟩], [], [⟨7, "alice", 0, true, none⟩], []⟩

/-- A store with one published past-dated Post by bob carrying one comment. -/
def db8 : DB :=
  ⟨[⟨"alice"⟩, ⟨"bob"⟩], [], [⟨1, "bob", 0, true, none⟩], [⟨1, "alice", 1⟩]⟩

/-! ## Claim theorems -/

/-- C1: the claim fails on the code. Viewing bob's profile as alice (a general
listing), the Post with `is_published = false` is included: the other-user
branch of ProfileListView.get_queryset filters only by author and
`pub_date <= today`, not by is_published or the category's is_published. -/
theorem c1_unpublished_post_listed_in_other_users_profile :
    profileListView db1 0 (some "alice") "bob" =
      .listing "bob" [⟨⟨1, "bob", 0, false, none⟩, none⟩] ∧
    (⟨1, "bob", 0, false, none⟩ : Post).is_published = false := by
  decide

/-- C2: the claim fails on the code. The Post with `is_published = false` is
served in full by PostDetailView to an anonymous viewer: the view applies no
visibility filter at all. -/
theorem c2_unpublished_post_reachable_by_anonymous :
    postDetailView db2 none 1 = .detail ⟨1, "bob", 0, false, none⟩ [] ∧
    (⟨1, "bob", 0, false, none⟩ : Post).is_published = false := by
  decide

/-- C3: the claim fails on the code. Comment 1 is authored by bob, yet a
comment mutation by alice (the author of the Post whose pk equals the comment
id, not of the Comment) proceeds, while bob — the Comment's actual author — is
turned away; and the denial is a redirect to the index, not to the detail view
of the Comment's parent Post: CommentMixin.dispatch resolves a Post (not the
Comment) by the comment id and compares that Post's author. -/
theorem c3_comment_ownership_checked_against_wrong_entity :
    commentMutDispatch db3 (some "alice") 1 = .proceed ∧
    commentMutDispatch db3 (some "bob") 1 = .redirectIndex ∧
    (db3.comments.find? (fun c => c.id == 1)) = some ⟨1, "bob", 1⟩ := by
  decide

/-- C4: the claim fails on the code. Requesting the detail page of a Category
with `is_published = false` does not yield a not-found result:
CategoryDetailView resolves the Category by slug over the model's default
queryset, with no condition on is_published. -/
theorem c4_unpublished_category_page_served :
    categoryDetailView db4 0 "hidden" none ≠ .notFound ∧
    (⟨1, "hidden", false⟩ : Category).is_published = false := by
  decide

/-- C5: the claim fails on the code. A comment mutation naming comment id 7,
which refers to no existing Comment, does not fail with a not-found condition:
because a Post with pk 7 exists, CommentMixin.dispatch evaluates the ownership
comparison against that Post's author and answers with the denial redirect. -/
theorem c5_missing_comment_reaches_ownership_check :
    commentMutDispatch db5 (some "bob") 7 = .redirectIndex ∧
    (db5.comments.find? (fun c => c.id == 7)) = none := by
  decide

/-- C8: the claim fails on the code. Post 1 has exactly one associated
Comment, yet the other-user profile listing (alice viewing bob's profile)
carries no comment_count value for it: the other-user branch of
ProfileListView.get_queryset has no Count aggregate. -/
theorem c8_other_users_profile_listing_lacks_comment_count :
    (profileQueryset db8 0 "alice" "bob").map (fun e => e.commentCount) =
      [none] ∧
    commentCount db8 ⟨1, "bob", 0, true, none⟩ = 1 := by
  decide

end Blogicum

namespace Blogicum

/-! ## Helper lemmas about the listings and the paginator -/

theorem mem_insertDesc {a b : Entry} {l : List Entry} :
    a ∈ insertDesc b l ↔ a = b ∨ a ∈ l := by
  induction l with
  | nil => simp [insertDesc]
  | cons c l ih =>
      simp only [insertDesc]
      split
      · simp
      · rw [List.mem_cons, ih, List.mem_cons]
        tauto

theorem mem_orderByPubDateDesc {a : Entry} {l : List Entry} :
    a ∈ orderByPubDateDesc l ↔ a ∈ l := by
  induction l with
  | nil => simp [orderByPubDateDesc]
  | cons b l ih =>
      rw [orderByPubDateDesc, mem_insertDesc, ih, List.mem_cons]

theorem postListView_pub_date_le {db : DB} {today : Int} {e : Entry}
    (h : e ∈ postListView db today) : e.post.pub_date ≤ today := by
  unfold postListView at h
  rw [mem_orderByPubDateDesc] at h
  obtain ⟨p, hp, rfl⟩ := List.mem_map.mp h
  unfold get_published_posts at hp
  rw [List.mem_filter] at hp
  have h2 := hp.2
  simp only [Bool.and_eq_true, decide_eq_true_eq] at h2
  exact h2.1.1

theorem categoryPosts_pub_date_le {db : DB} {today : Int} {slug : String}
    {e : Entry} (h : e ∈ categoryPosts db today slug) :
    e.post.pub_date ≤ today := by
  unfold categoryPosts at h
  rw [mem_orderByPubDateDesc] at h
  obtain ⟨p, hp, rfl⟩ := List.mem_map.mp h
  rw [List.mem_filter] at hp
  have h2 := hp.2
  simp only [Bool.and_eq_true, decide_eq_true_eq] at h2
  exact h2.2

theorem profileQueryset_author {db : DB} {today : Int} {v u : String}
    {e : Entry} (h : e ∈ profileQueryset db today v u) : e.post.author = u := by
  unfold profileQueryset at h
  split at h
  · rw [mem_orderByPubDateDesc] at h
    obtain ⟨p, hp, rfl⟩ := List.mem_map.mp h
    rw [List.mem_filter] at hp
    have h2 := hp.2
    simp only [beq_iff_eq] at h2
    exact h2
  · rw [mem_orderByPubDateDesc] at h
    obtain ⟨p, hp, rfl⟩ := List.mem_map.mp h
    rw [List.mem_filter] at hp
    have h2 := hp.2
    simp only [Bool.and_eq_true, beq_iff_eq] at h2
    exact h2.1

theorem profileQueryset_other_pub_date_le {db : DB} {today : Int}
    {v u : String} (hne : v ≠ u) {e : Entry}
    (h : e ∈ profileQueryset db today v u) : e.post.pub_date ≤ today := by
  unfold profileQueryset at h
  rw [if_neg hne, mem_orderByPubDateDesc] at h
  obtain ⟨p, hp, rfl⟩ := List.mem_map.mp h
  rw [List.mem_filter] at hp
  have h2 := hp.2
  simp only [Bool.and_eq_true, decide_eq_true_eq] at h2
  exact h2.2

theorem mem_profileQueryset_self {db : DB} {today : Int} {p : Post}
    (hp : p ∈ db.posts) :
    (⟨p, some (commentCount db p)⟩ : Entry) ∈
      profileQueryset db today p.author p.author := by
  unfold profileQueryset
  rw [if_pos rfl, mem_orderByPubDateDesc]
  exact List.mem_map.mpr ⟨p, List.mem_filter.mpr ⟨hp, by simp⟩, rfl⟩

theorem one_le_numPages (count pageSize : Nat) :
    1 ≤ numPages count pageSize :=
  le_max_left 1 _

theorem getPage_number (l : List α) (pageSize : Nat) (param : Option Int) :
    (getPage l pageSize param).number = resolvePage l.length pageSize param :=
  rfl

theorem getPage_totalPages (l : List α) (pageSize : Nat) (param : Option Int) :
    (getPage l pageSize param).totalPages = numPages l.length pageSize :=
  rfl

theorem getPage_items_length_le (l : List α) (pageSize : Nat)
    (param : Option Int) : (getPage l pageSize param).items.length ≤ pageSize := by
  show ((l.drop _).take pageSize).length ≤ pageSize
  rw [List.length_take]
  exact min_le_left _ _

theorem resolvePage_lt_one {count pageSize : Nat} {q : Int} (hq : q < 1) :
    resolvePage count pageSize (some q) = 1 := by
  simp only [resolvePage]
  rw [if_pos hq]

theorem resolvePage_gt {count pageSize : Nat} {q : Int}
    (hq : (numPages count pageSize : Int) < q) :
    resolvePage count pageSize (some q) = numPages count pageSize := by
  simp only [resolvePage]
  have h1 : ¬q < 1 := by
    have := one_le_numPages count pageSize
    omega
  rw [if_neg h1, if_pos hq]

theorem resolvePage_in_range {count pageSize : Nat} {q : Int} (h1 : 1 ≤ q)
    (h2 : q ≤ (numPages count pageSize : Int)) :
    (resolvePage count pageSize (some q) : Int) = q := by
  simp only [resolvePage]
  rw [if_neg (by omega), if_neg (by omega)]
  exact Int.toNat_of_nonneg (by omega)

end Blogicum

namespace Blogicum

/-- A store with a single Post by bob whose pub_date (5) is strictly after
the current date (0). -/
def db6 : DB :=
  ⟨[⟨"bob"⟩], [], [⟨1, "bob", 5, true, none⟩], []⟩

/-- An empty store, used to exercise the paginator on an empty listing. -/
def db7 : DB := ⟨[], [], [], []⟩

/-- A store with a single registered user bob. -/
def db10 : DB := ⟨[⟨"bob"⟩], [], [], []⟩

/-- C6: a Post whose pub_date is strictly after the current date appears in no
public listing — not in the index listing, not in any category listing, and
not in a profile listing shown to a viewer other than its author — while the
author's own profile listing does contain it (the own-profile branch applies
no date or publication filter). -/
theorem c6_future_post_hidden_publicly_shown_to_owner
    (db : DB) (today : Int) (p : Post) (hp : p ∈ db.posts)
    (hfut : today < p.pub_date) :
    (∀ e ∈ postListView db today, e.post ≠ p) ∧
    (∀ slug : String, ∀ e ∈ categoryPosts db today slug, e.post ≠ p) ∧
    (∀ v u : String, v ≠ p.author →
      ∀ e ∈ profileQueryset db today v u, e.post ≠ p) ∧
    (∃ e ∈ profileQueryset db today p.author p.author, e.post = p) := by
  refine ⟨?_, ?_, ?_, ?_⟩
  · intro e he heq
    have hle := postListView_pub_date_le he
    rw [heq] at hle
    exact absurd hle (not_le.mpr hfut)
  · intro slug e he heq
    have hle := categoryPosts_pub_date_le he
    rw [heq] at hle
    exact absurd hle (not_le.mpr hfut)
  · intro v u hv e he heq
    by_cases hu : u = p.author
    · subst hu
      have hle := profileQueryset_other_pub_date_le hv he
      rw [heq] at hle
      exact absurd hle (not_le.mpr hfut)
    · have ha := profileQueryset_author he
      rw [heq] at ha
      exact hu ha.symm
  · exact ⟨⟨p, some (commentCount db p)⟩, mem_profileQueryset_self hp, rfl⟩

/-- Witness for C6 at a concrete store: bob's future-dated post is in bob's
own profile listing. -/
theorem c6_witness :
    ∃ e ∈ profileQueryset db6 0 "bob" "bob",
      e.post = (⟨1, "bob", 5, true, none⟩ : Post) :=
  (c6_future_post_hidden_publicly_shown_to_owner db6 0
    ⟨1, "bob", 5, true, none⟩ (by decide) (by decide)).2.2.2

theorem getPage_ten_properties (l : List Entry) (param : Option Int) :
    (getPage l 10 param).items.length ≤ 10 ∧
    (param = none → (getPage l 10 param).number = 1) ∧
    (∀ q : Int, param = some q → q < 1 → (getPage l 10 param).number = 1) ∧
    (∀ q : Int, param = some q →
      ((getPage l 10 param).totalPages : Int) < q →
      (getPage l 10 param).number = (getPage l 10 param).totalPages) ∧
    (∀ q : Int, param = some q → 1 ≤ q →
      q ≤ ((getPage l 10 param).totalPages : Int) →
      ((getPage l 10 param).number : Int) = q) := by
  refine ⟨getPage_items_length_le l 10 param, ?_, ?_, ?_, ?_⟩
  · intro h
    subst h
    rfl
  · intro q h hq
    subst h
    rw [getPage_number]
    exact resolvePage_lt_one hq
  · intro q h hq
    subst h
    rw [getPage_totalPages] at hq
    rw [getPage_number, getPage_totalPages]
    exact resolvePage_gt hq
  · intro q h h1 h2
    subst h
    rw [getPage_totalPages] at h2
    rw [getPage_number]
    exact resolvePage_in_range h1 h2

/-- C7: every listing — the index listing, every category listing, and every
profile listing — is paginated at the fixed page size 10: a page holds at
most 10 items, an absent or non-numeric page parameter (`none`) yields page 1,
a page number below 1 clamps to the first page, a page number beyond the last
page clamps to the last page, and an in-range page number is used as given. -/
theorem c7_every_listing_pagination (db : DB) (today : Int)
    (param : Option Int) (page : Page Entry)
    (h : page = postListPage db today param ∨
      (∃ slug : String, page = categoryListPage db today slug param) ∨
      (∃ v u : String, page = profileListPage db today v u param)) :
    page.items.length ≤ 10 ∧
    (param = none → page.number = 1) ∧
    (∀ q : Int, param = some q → q < 1 → page.number = 1) ∧
    (∀ q : Int, param = some q → (page.totalPages : Int) < q →
      page.number = page.totalPages) ∧
    (∀ q : Int, param = some q → 1 ≤ q → q ≤ (page.totalPages : Int) →
      (page.number : Int) = q) := by
  obtain h | ⟨slug, h⟩ | ⟨v, u, h⟩ := h <;> subst h
  · exact getPage_ten_properties (postListView db today) param
  · exact getPage_ten_properties (categoryPosts db today slug) param
  · exact getPage_ten_properties (profileQueryset db today v u) param

/-- Witness for C7 at concrete inputs: page 99 of a profile listing clamps to
its last page, page -5 of a category listing clamps to the first page, and an
absent page parameter on the index listing yields page 1. -/
theorem c7_witness :
    (profileListPage db7 0 "alice" "bob" (some 99)).number =
      (profileListPage db7 0 "alice" "bob" (some 99)).totalPages ∧
    (categoryListPage db7 0 "c" (some (-5))).number = 1 ∧
    (postListPage db7 0 none).number = 1 :=
  ⟨(c7_every_listing_pagination db7 0 (some 99)
      (profileListPage db7 0 "alice" "bob" (some 99))
      (Or.inr (Or.inr ⟨"alice", "bob", rfl⟩))).2.2.2.1 99 rfl (by decide),
   (c7_every_listing_pagination db7 0 (some (-5))
      (categoryListPage db7 0 "c" (some (-5)))
      (Or.inr (Or.inl ⟨"c", rfl⟩))).2.2.1 (-5) rfl (by decide),
   (c7_every_listing_pagination db7 0 none (postListPage db7 0 none)
      (Or.inl rfl)).2.1 rfl⟩

/-- C9: a Post created through the creation form stores the acting user as its
author — the form itself has no author field, so the value is set server-side —
and stores today's date as pub_date when the form supplies none, or the
supplied date otherwise. -/
theorem c9_created_post_author_and_default_pub_date
    (form : PostFormInput) (actingUser : String) (today : Int) (newId : Nat)
    (dflt : Bool) :
    (createPost form actingUser today newId dflt).author = actingUser ∧
    (form.pub_date = none →
      (createPost form actingUser today newId dflt).pub_date = today) ∧
    (∀ d : Int, form.pub_date = some d →
      (createPost form actingUser today newId dflt).pub_date = d) := by
  refine ⟨rfl, fun h => ?_, fun d h => ?_⟩ <;> simp [createPost, h]

/-- Witness for C9 at a concrete input: a form without pub_date, submitted by
alice on day 5, stores author alice and pub_date 5. -/
theorem c9_witness :
    (createPost ⟨"t", "x", none, none⟩ "alice" 5 1 true).author = "alice" ∧
    (createPost ⟨"t", "x", none, none⟩ "alice" 5 1 true).pub_date = 5 :=
  ⟨(c9_created_post_author_and_default_pub_date
      ⟨"t", "x", none, none⟩ "alice" 5 1 true).1,
   (c9_created_post_author_and_default_pub_date
      ⟨"t", "x", none, none⟩ "alice" 5 1 true).2.1 rfl⟩

/-- C10: a profile-listing request for an existing username by an anonymous
viewer is answered with the redirect to login, and no anonymous request to any
profile listing ever yields a listing. -/
theorem c10_profile_listing_requires_login
    (db : DB) (today : Int) (username : String)
    (h : ∃ u ∈ db.users, u.username = username) :
    profileListView db today none username = .loginRedirect ∧
    (∀ uname prof : String, ∀ entries : List Entry,
      profileListView db today none uname ≠ .listing prof entries) := by
  constructor
  · cases hf : db.users.find? (fun x => x.username == username) with
    | none =>
        exfalso
        obtain ⟨u, hu, hname⟩ := h
        have := List.find?_eq_none.mp hf u hu
        simp [hname] at this
    | some v => simp [profileListView, hf]
  · intro uname prof entries
    unfold profileListView
    split
    · intro hcontra
      exact ProfileResponse.noConfusion hcontra
    · intro hcontra
      exact ProfileResponse.noConfusion hcontra

/-- Witness for C10 at a concrete store: an anonymous request for bob's
profile is redirected to login. -/
theorem c10_witness :
    profileListView db10 0 none "bob" = .loginRedirect :=
  (c10_profile_listing_requires_login db10 0 "bob"
    ⟨⟨"bob"⟩, by decide, rfl⟩).1

end Blogicum
